import Mathlib

/-
  Verification development for the typhoon-action-guide MCP server.

  Shallow embedding of the repository sources:
    src/utils.py       (haversine_km)
    src/geo_kr.py      (KOREA_REGION_CENTERS, normalize_region, geocode_korea)
    src/data_go_kr.py  (DataGoKrTyphoonClient.list_unique_typhoons_in_range,
                        DataGoKrTyphoonClient.get_track_points,
                        build_client_from_env, default_recent_range, _safe_int,
                        _parse_dt_14, pagination loop)
    src/server.py      (_fmt_dt14_kst, _summarize_track_near_location,
                        tool_get_live_typhoon_summary, tool_search_past_typhoons,
                        tool_get_past_typhoon_track)

  Modelling conventions:
  - Python floats are idealised as real numbers.  Coordinates in the static
    geocoding table are decimal literals and are kept as rationals so that
    table lookups stay decidable; they are coerced to reals where the server
    feeds them into the haversine computation.
  - Python datetime values produced by strptime("%Y%m%d%HM%M"-style formats)
    are modelled by the DateTime structure below; the canonical 12-digit
    timestamp format is parsed with full range validation (month, day with
    leap years, hour, minute), mirroring datetime.strptime on the canonical
    zero-padded inputs.  "dt ± timedelta(hours=6)" is modelled by checked
    hour stepping: Python raises OverflowError when the result would leave
    [0001-01-01 00:00, 9999-12-31 23:59], which the checked functions model
    by returning none.
  - Calendar dates (datetime.date) are modelled by their proleptic Gregorian
    ordinal (Python date.toordinal), an integer; date ± timedelta(days=k)
    is then integer addition.  The upstream HTTP endpoint, already parsed
    through _as_items/_total_count, is modelled as a total function from
    (fromDate, toDate, pageNo, numOfRows) to a Page of items; the TTL cache
    is semantically transparent for such a fixed response function and is
    not modelled.
  - Python str.strip / str.lower / "in" / str.replace are re-implemented
    over the character list of the string (ASCII whitespace and ASCII case
    folding, which covers every string the sources use).
-/

namespace Typhoon

/-! ### Python string primitives -/

/-- ASCII whitespace recognised by str.strip. -/
def isSpaceChar (c : Char) : Bool :=
  c = ' ' || c = '\t' || c = '\n' || c = '\r' || c.toNat = 11 || c.toNat = 12

/-- Python str.strip(). -/
def pystrip (s : String) : String :=
  String.mk (((s.data.dropWhile isSpaceChar).reverse.dropWhile isSpaceChar).reverse)

/-- ASCII lower-casing of one character (Python str.lower on the ASCII range). -/
def lowerChar (c : Char) : Char :=
  if 65 ≤ c.toNat ∧ c.toNat ≤ 90 then Char.ofNat (c.toNat + 32) else c

/-- Python str.lower(). -/
def pylower (s : String) : String := String.mk (s.data.map lowerChar)

/-- Boolean list-prefix test over characters. -/
def isPrefixOfB : List Char → List Char → Bool
  | [], _ => true
  | _ :: _, [] => false
  | a :: as, b :: bs => a == b && isPrefixOfB as bs

/-- Boolean contiguous-sublist test over characters. -/
def infixOfB (needle : List Char) : List Char → Bool
  | [] => isPrefixOfB needle []
  | c :: t => isPrefixOfB needle (c :: t) || infixOfB needle t

/-- Python "needle in hay" substring containment. -/
def pyIn (needle hay : String) : Bool := infixOfB needle.data hay.data

/-- Replace the leftmost, non-overlapping occurrences of a non-empty pattern,
fueled by the length of the scanned list (one unit of fuel per retained or
replaced position, so the list length is always enough fuel). -/
def replaceFuel (pat rep : List Char) : Nat → List Char → List Char
  | 0, rest => rest
  | _ + 1, [] => []
  | fuel + 1, c :: t =>
    if !pat.isEmpty && isPrefixOfB pat (c :: t) then
      rep ++ replaceFuel pat rep fuel (List.drop (pat.length - 1) t)
    else
      c :: replaceFuel pat rep fuel t

/-- Python str.replace(pat, rep) (all occurrences, left to right). -/
def pyreplace (s pat rep : String) : String :=
  String.mk (replaceFuel pat.data rep.data s.data.length s.data)

/-! ### Datetime model -/

/-- A Python datetime truncated to minute precision (the precision produced by
strptime("%Y%m%d%H%M")). -/
structure DateTime where
  year : Nat
  month : Nat
  day : Nat
  hour : Nat
  minute : Nat
deriving DecidableEq, Repr

/-- Order-faithful numeric key for valid datetimes (fields are in range, so the
base-100 packing is lexicographic, matching Python datetime comparison). -/
def DateTime.key (d : DateTime) : Nat :=
  (((d.year * 100 + d.month) * 100 + d.day) * 100 + d.hour) * 100 + d.minute

/-- Python datetime.min truncated to minutes (0001-01-01 00:00). -/
def dtMin : DateTime := ⟨1, 1, 1, 0, 0⟩

/-- Gregorian leap-year test. -/
def isLeap (y : Nat) : Bool := y % 4 = 0 && (y % 100 ≠ 0 || y % 400 = 0)

/-- Number of days in a month. -/
def daysInMonth (y m : Nat) : Nat :=
  if m = 2 then (if isLeap y then 29 else 28)
  else if m = 4 ∨ m = 6 ∨ m = 9 ∨ m = 11 then 30
  else 31

/-- Is this character an ASCII digit. -/
def isDigitChar (c : Char) : Bool := 48 ≤ c.toNat && c.toNat ≤ 57

/-- Numeric value of an ASCII digit. -/
def digitVal (c : Char) : Nat := c.toNat - 48

/-- Source src/data_go_kr.py _parse_dt_14: datetime.strptime(s, "%Y%m%d%H%M")
wrapped in try/except, None on failure.  Parses the canonical zero-padded
12-digit form with the same field validation as Python (strptime's regexes
reject month 0 and month greater than 12 and hour greater than 23, and the
datetime constructor validates the day against the month length). -/
def parse_dt_14 (s : String) : Option DateTime :=
  match s.data with
  | [y1, y2, y3, y4, m1, m2, d1, d2, h1, h2, n1, n2] =>
    if [y1, y2, y3, y4, m1, m2, d1, d2, h1, h2, n1, n2].all isDigitChar then
      let y := ((digitVal y1 * 10 + digitVal y2) * 10 + digitVal y3) * 10 + digitVal y4
      let mo := digitVal m1 * 10 + digitVal m2
      let da := digitVal d1 * 10 + digitVal d2
      let ho := digitVal h1 * 10 + digitVal h2
      let mi := digitVal n1 * 10 + digitVal n2
      if 1 ≤ y ∧ 1 ≤ mo ∧ mo ≤ 12 ∧ 1 ≤ da ∧ da ≤ daysInMonth y mo ∧ ho ≤ 23 ∧ mi ≤ 59 then
        some ⟨y, mo, da, ho, mi⟩
      else none
    else none
  | _ => none

/-- ASCII digit character for n % 10. -/
def digitChar (n : Nat) : Char := Char.ofNat (48 + n % 10)

/-- Zero-padded two-digit decimal rendering. -/
def pad2 (n : Nat) : String := String.mk [digitChar (n / 10), digitChar n]

/-- Zero-padded four-digit decimal rendering. -/
def pad4 (n : Nat) : String :=
  String.mk [digitChar (n / 1000), digitChar (n / 100), digitChar (n / 10), digitChar n]

/-- strftime("%Y-%m-%d %H:%M"). -/
def strftime_ymd_hm (d : DateTime) : String :=
  pad4 d.year ++ "-" ++ pad2 d.month ++ "-" ++ pad2 d.day ++ " " ++ pad2 d.hour ++ ":" ++ pad2 d.minute

/-- Source src/server.py _fmt_dt14_kst: reformat a YYYYMMDDHHMM timestamp
human-readably, echoing the input unchanged when parsing fails. -/
def fmt_dt14_kst (typ_tm : String) : String :=
  match parse_dt_14 typ_tm with
  | some dt => strftime_ymd_hm dt
  | none => typ_tm

/-- Next calendar day; none past datetime.max's date (9999-12-31). -/
def nextDay (d : DateTime) : Option DateTime :=
  if d.day < daysInMonth d.year d.month then some { d with day := d.day + 1 }
  else if d.month < 12 then some { d with month := d.month + 1, day := 1 }
  else if d.year < 9999 then some { d with year := d.year + 1, month := 1, day := 1 }
  else none

/-- Previous calendar day; none before datetime.min's date (0001-01-01). -/
def prevDay (d : DateTime) : Option DateTime :=
  if 1 < d.day then some { d with day := d.day - 1 }
  else if 1 < d.month then some { d with month := d.month - 1, day := daysInMonth d.year (d.month - 1) }
  else if 1 < d.year then some { d with year := d.year - 1, month := 12, day := 31 }
  else none

/-- One hour forward, none on datetime overflow. -/
def nextHourC (d : DateTime) : Option DateTime :=
  if d.hour < 23 then some { d with hour := d.hour + 1 }
  else (nextDay d).map fun e => { e with hour := 0 }

/-- One hour back, none on datetime underflow. -/
def prevHourC (d : DateTime) : Option DateTime :=
  if 0 < d.hour then some { d with hour := d.hour - 1 }
  else (prevDay d).map fun e => { e with hour := 23 }

/-- dt + timedelta(hours=n): none when Python would raise OverflowError. -/
def addHoursC : Nat → DateTime → Option DateTime
  | 0, d => some d
  | n + 1, d => (nextHourC d).bind (addHoursC n)

/-- dt - timedelta(hours=n): none when Python would raise OverflowError. -/
def subHoursC : Nat → DateTime → Option DateTime
  | 0, d => some d
  | n + 1, d => (prevHourC d).bind (subHoursC n)

/-! ### Great-circle distance (src/utils.py haversine_km) -/

/-- math.radians. -/
noncomputable def radians (x : ℝ) : ℝ := x * Real.pi / 180

/-- math.atan2 (two-argument arctangent with full quadrant handling). -/
noncomputable def atan2 (y x : ℝ) : ℝ :=
  if 0 < x then Real.arctan (y / x)
  else if x < 0 ∧ 0 ≤ y then Real.arctan (y / x) + Real.pi
  else if x < 0 then Real.arctan (y / x) - Real.pi
  else if 0 < y then Real.pi / 2
  else if y < 0 then -(Real.pi / 2)
  else 0

/-- Source src/utils.py haversine_km: great-circle distance in km between two
coordinates, Earth radius 6371 km. -/
noncomputable def haversine_km (lat1 lon1 lat2 lon2 : ℝ) : ℝ :=
  let r : ℝ := 6371
  let phi1 := radians lat1
  let phi2 := radians lat2
  let dphi := radians (lat2 - lat1)
  let dlambda := radians (lon2 - lon1)
  let a := Real.sin (dphi / 2) ^ 2 + Real.cos phi1 * Real.cos phi2 * Real.sin (dlambda / 2) ^ 2
  let c := 2 * atan2 (Real.sqrt a) (Real.sqrt (1 - a))
  r * c

open Classical in
/-- Python round(x) (banker's rounding: ties to the even integer), idealised
over the reals. -/
noncomputable def pyRoundHalfEven (x : ℝ) : ℤ :=
  if Int.fract x < 1 / 2 then ⌊x⌋
  else if 1 / 2 < Int.fract x then ⌊x⌋ + 1
  else if ⌊x⌋ % 2 = 0 then ⌊x⌋ else ⌊x⌋ + 1

/-- Python round(x, 1): round to one decimal place. -/
noncomputable def round1 (x : ℝ) : ℝ := (pyRoundHalfEven (x * 10) : ℝ) / 10

/-! ### Geocoder (src/geo_kr.py) -/

/-- Source src/geo_kr.py KOREA_REGION_CENTERS, in dict insertion order.
Coordinates are kept as rationals (the decimal literals of the table). -/
def KOREA_REGION_CENTERS : List (String × ℚ × ℚ) :=
  [ ("서울", 37.5665, 126.9780),
    ("부산", 35.1796, 129.0756),
    ("대구", 35.8714, 128.6014),
    ("인천", 37.4563, 126.7052),
    ("광주", 35.1595, 126.8526),
    ("대전", 36.3504, 127.3845),
    ("울산", 35.5384, 129.3114),
    ("세종", 36.4800, 127.2890),
    ("경기", 37.4138, 127.5183),
    ("강원", 37.8228, 128.1555),
    ("충북", 36.6357, 127.4912),
    ("충남", 36.5184, 126.8000),
    ("전북", 35.7175, 127.1530),
    ("전남", 34.8161, 126.4630),
    ("경북", 36.4919, 128.8889),
    ("경남", 35.4606, 128.2132),
    ("제주", 33.4996, 126.5312),
    ("제주시", 33.4996, 126.5312),
    ("서귀포", 33.2541, 126.5601) ]

/-- Source src/geo_kr.py normalize_region: strip, then delete the Korean
administrative suffixes in the source's order. -/
def normalize_region (text : String) : String :=
  let t := pystrip text
  let t := pyreplace t "특별자치도" ""
  let t := pyreplace t "광역시" ""
  let t := pyreplace t "특별시" ""
  let t := pyreplace t "도" ""
  pyreplace t "시" ""

/-- Source src/geo_kr.py geocode_korea: first pass matches a table key as a
substring of the raw input; second pass compares normalised forms. -/
def geocode_korea (region : String) : Option (ℚ × ℚ) :=
  if region = "" then none
  else
    let raw := pystrip region
    match KOREA_REGION_CENTERS.find? (fun kv => pyIn kv.1 raw) with
    | some kv => some kv.2
    | none =>
      let n := normalize_region raw
      match KOREA_REGION_CENTERS.find? (fun kv => normalize_region kv.1 == n) with
      | some kv => some kv.2
      | none => none

/-! ### Upstream client model (src/data_go_kr.py) -/

/-- One bulletin item as delivered by the upstream endpoint after JSON
parsing.  String fields carry the raw values (str() of what the JSON held,
"" standing for an absent key, matching the .get defaults); typLat/typLon
hold the outcome of Python float() on the raw value: some r on success,
none when float() would raise (absent key or non-numeric text). -/
structure Item where
  typSeq : String
  typName : String
  typEn : String
  typTm : String
  typLat : Option ℝ
  typLon : Option ℝ
  typDir : String
  typSp : String
  typPs : String
  typWs : String
  typLoc : String
  tmFc : String
  tmSeq : String

/-- One page of the paginated upstream response, after _as_items and
_total_count have been applied (missing items mean an empty list, a missing
or non-numeric totalCount means 0 via _safe_int). -/
structure Page where
  items : List Item
  totalCount : ℤ

/-- Source src/data_go_kr.py DataGoKrTyphoonClient: the service key plus the
upstream endpoint, modelled as a total response function of
(fromDate, toDate, pageNo, numOfRows); dates are proleptic Gregorian
ordinals.  fetch_typhoon_info's TTL cache is transparent for a fixed
response function and is not modelled. -/
structure Client where
  service_key : String
  fetch : ℤ → ℤ → Nat → Nat → Page

/-- Source src/data_go_kr.py _safe_int: int(x) with a default on failure.
Python int() of a string strips whitespace and accepts an optional sign
followed by digits. -/
def safe_int (s : String) (default : ℤ) : ℤ :=
  match (pystrip s).data with
  | '-' :: rest =>
    if !rest.isEmpty && rest.all isDigitChar then
      -((rest.foldl (fun acc c => acc * 10 + digitVal c) 0 : Nat) : ℤ)
    else default
  | '+' :: rest =>
    if !rest.isEmpty && rest.all isDigitChar then
      ((rest.foldl (fun acc c => acc * 10 + digitVal c) 0 : Nat) : ℤ)
    else default
  | ds =>
    if !ds.isEmpty && ds.all isDigitChar then
      ((ds.foldl (fun acc c => acc * 10 + digitVal c) 0 : Nat) : ℤ)
    else default

/-- The shared pagination loop of list_unique_typhoons_in_range and
get_track_points: starting from the given page, fetch a page; stop when it
has no items; otherwise process its items into the running state and stop
when pageNumber * pageSize is at least the reported totalCount, else move to
the next page.  The while-loop condition "page <= max_pages" is the fuel
(max_pages + 1 - page iterations remain).  The second component is a ghost
log of the page numbers actually fetched; it does not influence the result
or the control flow. -/
def pagLoop {σ : Type} (f : Nat → Page) (rows : Nat) (step : σ → List Item → σ) :
    Nat → Nat → σ → List Nat → σ × List Nat
  | 0, _, st, log => (st, log)
  | fuel + 1, page, st, log =>
    let pg := f page
    if pg.items.isEmpty then (st, log ++ [page])
    else
      let st2 := step st pg.items
      if pg.totalCount ≤ (page : ℤ) * (rows : ℤ) then (st2, log ++ [page])
      else pagLoop f rows step fuel (page + 1) st2 (log ++ [page])

/-- Internal per-typhoon summary record of list_unique_typhoons_in_range,
before the firstDt/lastDt working fields are popped. -/
structure SumAcc where
  typSeq : ℤ
  typName : String
  typEn : String
  firstTypTm : String
  lastTypTm : String
  firstDt : Option DateTime
  lastDt : Option DateTime
deriving DecidableEq, Repr

/-- The outward TyphoonSummary after the working datetime fields are popped. -/
structure Summary where
  typSeq : ℤ
  typName : String
  typEn : String
  firstTypTm : String
  lastTypTm : String
deriving DecidableEq, Repr

/-- Drop the internal firstDt/lastDt working fields. -/
def eraseDts (a : SumAcc) : Summary := ⟨a.typSeq, a.typName, a.typEn, a.firstTypTm, a.lastTypTm⟩

/-- The widening step applied when a sequence number is seen again: each bound
moves only when the new timestamp parsed (dt is some) and beats the stored
bound (or the stored bound is still None). -/
def updateAcc (a : SumAcc) (typ_tm : String) (dt : Option DateTime) : SumAcc :=
  match dt with
  | none => a
  | some d =>
    let condF := match a.firstDt with
      | none => true
      | some f => decide (d.key < f.key)
    let condL := match a.lastDt with
      | none => true
      | some l => decide (l.key < d.key)
    { a with
      firstTypTm := if condF then typ_tm else a.firstTypTm,
      firstDt := if condF then some d else a.firstDt,
      lastTypTm := if condL then typ_tm else a.lastTypTm,
      lastDt := if condL then some d else a.lastDt }

/-- Per-item body of the summary loop: skip blank sequence numbers; insert a
fresh record on first sight (dict insertion appends) or widen the stored
record (dict update in place). -/
def processSummaryItem (seen : List (String × SumAcc)) (it : Item) : List (String × SumAcc) :=
  let typ_seq := pystrip it.typSeq
  if typ_seq = "" then seen
  else
    let typ_tm := pystrip it.typTm
    let dt := parse_dt_14 typ_tm
    if (seen.find? (fun kv => kv.1 == typ_seq)).isSome then
      seen.map (fun kv => if kv.1 == typ_seq then (kv.1, updateAcc kv.2 typ_tm dt) else kv)
    else
      seen ++ [(typ_seq,
        ⟨safe_int typ_seq 0, pystrip it.typName, pystrip it.typEn, typ_tm, typ_tm, dt, dt⟩)]

/-- Page-level step of the summary loop. -/
def stepSummaries (seen : List (String × SumAcc)) (items : List Item) : List (String × SumAcc) :=
  items.foldl processSummaryItem seen

/-- Stable insertion into a list sorted descending by key: the new element
goes before the first position whose key is not larger (Python list.sort with
reverse=True keeps equal keys in their original order; any stable sort realises the same
unique output). -/
def insertByKeyDesc {α : Type} (key : α → Nat) (a : α) : List α → List α
  | [] => [a]
  | b :: t => if key a < key b then b :: insertByKeyDesc key a t else a :: b :: t

/-- Stable sort, descending by key. -/
def sortByKeyDesc {α : Type} (key : α → Nat) : List α → List α
  | [] => []
  | a :: t => insertByKeyDesc key a (sortByKeyDesc key t)

/-- Stable insertion into a list sorted ascending by key. -/
def insertByKeyAsc {α : Type} (key : α → Nat) (a : α) : List α → List α
  | [] => [a]
  | b :: t => if key b < key a then b :: insertByKeyAsc key a t else a :: b :: t

/-- Stable sort, ascending by key. -/
def sortByKeyAsc {α : Type} (key : α → Nat) : List α → List α
  | [] => []
  | a :: t => insertByKeyAsc key a (sortByKeyAsc key t)

/-- Sort key of the final summary sort: x.get("lastDt") or datetime.min
(datetime values are always truthy in Python, so the fallback fires exactly
when lastDt is None). -/
def sumSortKey (a : SumAcc) : Nat := (a.lastDt.getD dtMin).key

/-- Source src/data_go_kr.py list_unique_typhoons_in_range: paginate over the
range, merge bulletins into per-sequence-number summaries, sort the summaries
descending by lastDt (missing lastDt counts as datetime.min), then pop the
working datetime fields.  The source's default arguments are
max_pages = 20, num_of_rows = 100. -/
def list_unique_typhoons_in_range (c : Client) (from_d to_d : ℤ)
    (max_pages num_of_rows : Nat) : List Summary :=
  let fetch := fun page => c.fetch from_d to_d page num_of_rows
  let seen := (pagLoop fetch num_of_rows stepSummaries max_pages 1 [] []).1
  (sortByKeyDesc sumSortKey (seen.map (fun kv => kv.2))).map eraseDts

/-- One parsed track point, after the working dt field is popped.  The ghost
dt of the source always equals parse_dt_14 of the stored typTm, so the final
sort key can be recomputed from typTm. -/
structure TrackPoint where
  typTm : String
  lat : ℝ
  lon : ℝ
  typDir : String
  typSp : String
  typPs : String
  typWs : String
  typLoc : String
  tmFc : String
  tmSeq : String

/-- Per-item body of the track loop: skip items of other sequence numbers;
skip items whose latitude or longitude fails float() parsing (the try/except
continue); append the parsed point otherwise. -/
def processTrackItem (typ_seq : ℤ) (pts : List TrackPoint) (it : Item) : List TrackPoint :=
  if safe_int it.typSeq 0 ≠ typ_seq then pts
  else
    match it.typLat, it.typLon with
    | some la, some lo =>
      pts ++ [⟨pystrip it.typTm, la, lo, it.typDir, it.typSp, it.typPs, it.typWs,
               it.typLoc, it.tmFc, it.tmSeq⟩]
    | _, _ => pts

/-- Page-level step of the track loop. -/
def stepTrack (typ_seq : ℤ) (pts : List TrackPoint) (items : List Item) : List TrackPoint :=
  items.foldl (processTrackItem typ_seq) pts

/-- Final ascending sort key of get_track_points: x.get("dt") or datetime.min,
where the ghost dt is parse_dt_14 of the stored (stripped) typTm. -/
def trackSortKey (p : TrackPoint) : Nat := ((parse_dt_14 p.typTm).getD dtMin).key

/-- Source src/data_go_kr.py get_track_points: paginate over the range, keep
the items of the requested sequence number whose coordinates parse, sort
ascending by the parsed timestamp (unparsable timestamps sort as
datetime.min).  The source's default arguments are max_pages = 20,
num_of_rows = 100. -/
def get_track_points (c : Client) (typ_seq : ℤ) (from_d to_d : ℤ)
    (max_pages num_of_rows : Nat) : List TrackPoint :=
  let fetch := fun page => c.fetch from_d to_d page num_of_rows
  let pts := (pagLoop fetch num_of_rows (stepTrack typ_seq) max_pages 1 [] []).1
  sortByKeyAsc trackSortKey pts

/-- Specification-shaped per-item parser used to state what the track loop
keeps: none for another sequence number or unparsable coordinates. -/
def mkTrackPoint (typ_seq : ℤ) (it : Item) : Option TrackPoint :=
  if safe_int it.typSeq 0 ≠ typ_seq then none
  else
    match it.typLat, it.typLon with
    | some la, some lo =>
      some ⟨pystrip it.typTm, la, lo, it.typDir, it.typSp, it.typPs, it.typWs,
            it.typLoc, it.tmFc, it.tmSeq⟩
    | _, _ => none

/-- The concatenation of the items of every page the pagination loop fetches
(same loop, with the state collecting raw items). -/
def allFetchedItems (c : Client) (from_d to_d : ℤ) (max_pages num_of_rows : Nat) : List Item :=
  let fetch := fun page => c.fetch from_d to_d page num_of_rows
  (pagLoop fetch num_of_rows (fun acc items => acc ++ items) max_pages 1 [] []).1

/-- The stopping condition of the pagination loop at a given page: the page
has no items, or pageNumber * pageSize reaches the page's reported
totalCount. -/
def pageStop (f : Nat → Page) (rows page : Nat) : Prop :=
  (f page).items.isEmpty = true ∨ (f page).totalCount ≤ (page : ℤ) * (rows : ℤ)

/-- Source src/data_go_kr.py build_client_from_env: reads
DATA_GO_KR_SERVICE_KEY (modelled as the optional environment value), strips
it, and raises RuntimeError when it is empty; the error side models the
raised exception carrying str(e). -/
def build_client_from_env (env : ℤ → ℤ → Nat → Nat → Page) (keyOpt : Option String) :
    Except String Client :=
  let key := pystrip (keyOpt.getD "")
  if key = "" then Except.error "DATA_GO_KR_SERVICE_KEY 환경변수가 비어있습니다. .env를 설정하세요."
  else Except.ok ⟨key, env⟩

/-- The RuntimeError message of build_client_from_env. -/
def missingKeyMsg : String := "DATA_GO_KR_SERVICE_KEY 환경변수가 비어있습니다. .env를 설정하세요."

/-- Source src/data_go_kr.py default_recent_range (days as ordinals). -/
def default_recent_range (days_back days_forward today : ℤ) : ℤ × ℤ :=
  (today - days_back, today + days_forward)

/-- date(y, 1, 1).toordinal() for y ≥ 1 (proleptic Gregorian). -/
def jan1Ordinal (y : ℤ) : ℤ :=
  365 * (y - 1) + Int.fdiv (y - 1) 4 - Int.fdiv (y - 1) 100 + Int.fdiv (y - 1) 400 + 1

/-- date(y, 12, 31).toordinal(). -/
def dec31Ordinal (y : ℤ) : ℤ := jan1Ordinal (y + 1) - 1

/-- The calendar year containing an ordinal day (date.fromordinal(o).year),
via the standard civil-from-days arithmetic with floor division. -/
def yearOfOrdinal (o : ℤ) : ℤ :=
  let z := o + 305
  let era := Int.fdiv z 146097
  let doe := z - era * 146097
  let yoe := Int.fdiv (doe - Int.fdiv doe 1460 + Int.fdiv doe 36524 - Int.fdiv doe 146096) 365
  let y := yoe + era * 400
  let doy := doe - (365 * yoe + Int.fdiv yoe 4 - Int.fdiv yoe 100)
  let mp := Int.fdiv (5 * doy + 2) 153
  let m := mp + (if mp < 10 then 3 else -9)
  y + (if m ≤ 2 then 1 else 0)

/-! ### Nearest-approach summary (src/server.py) -/

/-- The running best of the scan loop of _summarize_track_near_location:
{"dist_km": dist, "p": p}. -/
structure BestAcc where
  dist_km : ℝ
  p : TrackPoint

/-- Distance from the target location to a track point's coordinate. -/
noncomputable def trackDist (loc_lat loc_lon : ℝ) (q : TrackPoint) : ℝ :=
  haversine_km loc_lat loc_lon q.lat q.lon

open Classical in
/-- The scan loop of _summarize_track_near_location: keep the current best,
replacing it only on a strictly smaller distance (so the first minimum in
scan order wins ties). -/
noncomputable def bestAux (loc_lat loc_lon : ℝ) : Option BestAcc → List TrackPoint → Option BestAcc
  | best, [] => best
  | best, q :: rest =>
    let dist := trackDist loc_lat loc_lon q
    let best2 := match best with
      | none => some ⟨dist, q⟩
      | some b => if dist < b.dist_km then some ⟨dist, q⟩ else some b
    bestAux loc_lat loc_lon best2 rest

/-- The minimum-distance point of the scan (best is None before the loop). -/
noncomputable def bestPoint (points : List TrackPoint) (loc_lat loc_lon : ℝ) : Option BestAcc :=
  bestAux loc_lat loc_lon none points

/-- The "impact_window" dictionary (the source's "end" key is called ending
here because end is a reserved word). -/
structure ImpactWindow where
  start : String
  ending : String
  center : String
deriving DecidableEq, Repr

/-- The impact-window computation of _summarize_track_near_location: strptime
the best point's timestamp and move six hours each way; the try/except
yields None when parsing fails or when either timedelta step would raise
OverflowError. -/
def windowOfTm (typ_tm : String) : Option ImpactWindow :=
  match parse_dt_14 typ_tm with
  | none => none
  | some dt =>
    match subHoursC 6 dt, addHoursC 6 dt with
    | some s, some e => some ⟨strftime_ymd_hm s, strftime_ymd_hm e, strftime_ymd_hm dt⟩
    | _, _ => none

/-- The "closest" dictionary of _summarize_track_near_location. -/
structure ClosestInfo where
  time : String
  distance_km : ℝ
  typhoon_lat : ℝ
  typhoon_lon : ℝ
  typLoc : String

/-- The result dictionary of _summarize_track_near_location. -/
structure NearSummary where
  closest : Option ClosestInfo
  impact_window : Option ImpactWindow

/-- Source src/server.py _summarize_track_near_location. -/
noncomputable def summarize_track_near_location (points : List TrackPoint)
    (loc_lat loc_lon : ℝ) : NearSummary :=
  match bestPoint points loc_lat loc_lon with
  | none => ⟨none, none⟩
  | some b =>
    ⟨some ⟨fmt_dt14_kst b.p.typTm, round1 b.dist_km, b.p.lat, b.p.lon, b.p.typLoc⟩,
     windowOfTm b.p.typTm⟩

/-! ### The three exposed tools (src/server.py) -/

/-- Source src/server.py line 35: the module-level client slot starts out as
None at import time; the client is only built inside _get_data_client on the
first tool call. -/
def initial_data_client : Option Client := none

/-- The structured payload of tool_get_live_typhoon_summary (the JSON-RPC
text serialisation is transport and out of scope). -/
structure LivePayload where
  has_active_typhoon : Bool
  typhoon : Summary
  latest_point : Option TrackPoint
  location_input : Option String
  geocoded : Option (ℚ × ℚ)
  proximity : Option NearSummary
  range_from : ℤ
  range_to : ℤ

/-- The structured result a tool hands back to the dispatcher. -/
inductive ToolOut where
  | message : String → ToolOut
  | live : LivePayload → ToolOut
  | searchByYear : ℤ → List Summary → ToolOut
  | searchByQuery : String → List Summary → ToolOut
  | track : ℤ → Nat → List TrackPoint → ToolOut

/-- The user-facing message tool_get_live_typhoon_summary returns when the
lazy client construction raises (f-string over str(e)). -/
def initFailMsg : String :=
  "데이터 클라이언트 초기화 실패: " ++ missingKeyMsg ++ "\nDATA_GO_KR_SERVICE_KEY 설정을 확인하세요."

/-- Source src/server.py tool_get_live_typhoon_summary.  The only tool that
wraps _get_data_client in try/except: a missing credential becomes a normal
message result.  date.today() is the today parameter; an Except.error result
would model an exception escaping the tool (this tool never produces one). -/
noncomputable def tool_get_live_typhoon_summary (env : ℤ → ℤ → Nat → Nat → Page)
    (keyOpt : Option String) (location : Option String) (today : ℤ) : Except String ToolOut :=
  match build_client_from_env env keyOpt with
  | Except.error e =>
    Except.ok (ToolOut.message
      ("데이터 클라이언트 초기화 실패: " ++ e ++ "\nDATA_GO_KR_SERVICE_KEY 설정을 확인하세요."))
  | Except.ok client =>
    let fromd := (default_recent_range 3 1 today).1
    let tod := (default_recent_range 3 1 today).2
    match list_unique_typhoons_in_range client fromd tod 20 100 with
    | [] => Except.ok (ToolOut.message "현재 조회 범위 내 태풍 정보가 확인되지 않습니다.")
    | t :: _ =>
      let typ_seq := t.typSeq
      let pts := get_track_points client typ_seq (today - 7) (today + 2) 20 100
      let loc := geocode_korea ((location.getD ""))
      let near := match loc, pts with
        | some lc, _ :: _ => some (summarize_track_near_location pts (lc.1 : ℝ) (lc.2 : ℝ))
        | _, _ => none
      Except.ok (ToolOut.live
        ⟨true, t, pts.getLast?, location, loc, near, fromd, tod⟩)

/-- The name-matching filter of tool_search_past_typhoons: query substring of
the local name, or case-insensitive substring of the international name. -/
def searchMatches (query : String) (typhoons : List Summary) : List Summary :=
  typhoons.filter (fun t => pyIn query t.typName || pyIn (pylower query) (pylower t.typEn))

/-- Source src/server.py tool_search_past_typhoons.  No try/except around
_get_data_client: a missing credential escapes as the RuntimeError
(Except.error).  maxYearsBack models the PAST_TY_SEARCH_MAX_YEARS_BACK
environment value (default 70). -/
def tool_search_past_typhoons (env : ℤ → ℤ → Nat → Nat → Page) (keyOpt : Option String)
    (query0 : String) (year : Option ℤ) (today : ℤ) (maxYearsBack : ℤ) : Except String ToolOut :=
  let query := pystrip query0
  if query = "" ∧ year = none then
    Except.ok (ToolOut.message "query 또는 year 중 하나는 필요합니다.")
  else
    match build_client_from_env env keyOpt with
    | Except.error e => Except.error e
    | Except.ok client =>
      match year with
      | some y =>
        let typhoons := list_unique_typhoons_in_range client (jan1Ordinal y) (dec31Ordinal y) 20 100
        Except.ok (ToolOut.searchByYear y ((searchMatches query typhoons).take 30))
      | none =>
        let startYear := yearOfOrdinal today
        let endYear := max (startYear - maxYearsBack) 1950
        let years := (List.range (startYear - endYear + 1).toNat).map (fun i => startYear - (i : ℤ))
        let allMatches := (years.findSome? (fun y =>
          let typhoons := list_unique_typhoons_in_range client (jan1Ordinal y) (dec31Ordinal y) 20 100
          let ms := searchMatches query typhoons
          if ms.isEmpty then none else some ms)).getD []
        Except.ok (ToolOut.searchByQuery query (allMatches.take 30))

/-- Source src/server.py tool_get_past_typhoon_track.  Validates typSeq, then
performs a single get_track_points call over the fixed window
[today - 365*10 days, today + 1 day]; no try/except around _get_data_client,
so a missing credential escapes as the RuntimeError.  The second component
is a ghost log of the (from_d, to_d) ranges requested from the client. -/
def tool_get_past_typhoon_track (env : ℤ → ℤ → Nat → Nat → Page) (keyOpt : Option String)
    (today : ℤ) (typSeq : ℤ) : Except String ToolOut × List (ℤ × ℤ) :=
  if typSeq ≤ 0 then (Except.ok (ToolOut.message "typSeq는 1 이상의 정수여야 합니다."), [])
  else
    match build_client_from_env env keyOpt with
    | Except.error e => (Except.error e, [])
    | Except.ok client =>
      let from_d := today - 365 * 10
      let to_d := today + 1
      let pts := get_track_points client typSeq from_d to_d 20 100
      (Except.ok (ToolOut.track typSeq pts.length pts), [(from_d, to_d)])

/-! ### Derived predicates and specification keys -/

/-- The page numbers the pagination loop fetches, mirroring pagLoop's control
flow (which does not depend on the processing step). -/
def pagesFetched (f : Nat → Page) (rows : Nat) : Nat → Nat → List Nat
  | 0, _ => []
  | fuel + 1, page =>
    page ::
      (if (f page).items.isEmpty then []
       else if (f page).totalCount ≤ (page : ℤ) * (rows : ℤ) then []
       else pagesFetched f rows fuel (page + 1))

/-- Consistency invariant of a summary record: the working datetime fields
are the parses of the stored timestamp strings, and when both parse the
first-seen bound is at most the last-seen bound. -/
def accInv (a : SumAcc) : Prop :=
  parse_dt_14 a.firstTypTm = a.firstDt ∧
  parse_dt_14 a.lastTypTm = a.lastDt ∧
  ∀ df dl : DateTime, a.firstDt = some df → a.lastDt = some dl → df.key ≤ dl.key

/-- The invariant over the whole seen-dictionary. -/
def seenInv (seen : List (String × SumAcc)) : Prop := ∀ kv ∈ seen, accInv kv.2

/-- The descending sort key recomputed from the outward summary's stored
last-seen string (missing or unparsable timestamps count as datetime.min). -/
def strSumKey (s : Summary) : Nat := ((parse_dt_14 s.lastTypTm).getD dtMin).key

/-! ### Concrete fixtures for witnesses and counterexamples -/

/-- Build a bulletin item with the unused passthrough fields left blank. -/
def mkItem (seq nm en tm : String) (la lo : Option ℝ) : Item :=
  ⟨seq, nm, en, tm, la, lo, "", "", "", "", "", "", ""⟩

/-- An upstream endpoint that always answers with an empty page. -/
def envEmpty : ℤ → ℤ → Nat → Nat → Page := fun _ _ _ _ => ⟨[], 0⟩

/-- A bulletin whose timestamp does not parse. -/
def itemU : Item := mkItem "1" "U" "UEN" "bad" none none

/-- A bulletin whose timestamp parses to datetime.min (year 1). -/
def itemP : Item := mkItem "2" "P" "PEN" "000101010000" none none

/-- One page carrying itemU before itemP. -/
def c2client : Client :=
  ⟨"k", fun _ _ page _ => if page = 1 then ⟨[itemU, itemP], 2⟩ else ⟨[], 0⟩⟩

/-- Fallback summary for positional lookups. -/
def blankSummary : Summary := ⟨0, "", "", "", ""⟩

/-- Second-page bulletin of sequence 3 with the earlier timestamp. -/
def itemS19 : Item := mkItem "3" "NAME" "EN" "201901011200" none none

/-- First-page bulletin of sequence 3 with the later timestamp. -/
def itemS20 : Item := mkItem "3" "NAME" "EN" "202001011200" none none

/-- A client whose bulletins for one sequence number span two pages, later
timestamp first. -/
def c7client : Client :=
  ⟨"k", fun _ _ page _ =>
    if page = 1 then ⟨[itemS20], 150⟩
    else if page = 2 then ⟨[itemS19], 150⟩
    else ⟨[], 0⟩⟩

/-- The summary the two-page client merges for sequence 3. -/
def s7 : Summary := ⟨3, "NAME", "EN", "201901011200", "202001011200"⟩

/-- An arbitrary non-empty item for pagination fixtures. -/
def dummyItem : Item := mkItem "9" "" "" "" none none

/-- A page reporting totalCount 150 with one item. -/
def pageW : Page := ⟨[dummyItem], 150⟩

/-- A track point for nearest-approach witnesses. -/
def tpA : TrackPoint := ⟨"201709031600", 1, 2, "", "", "", "", "", "", ""⟩

/-- A track point at the spec's example timestamp. -/
def tp2017 : TrackPoint := ⟨"201709031600", 0, 0, "", "", "", "", "", "", ""⟩

/-- A track point whose timestamp parses to datetime.min, within six hours of
the representable lower bound. -/
def tpEdge : TrackPoint := ⟨"000101010000", 0, 0, "", "", "", "", "", "", ""⟩

/-- A track point whose timestamp does not parse. -/
def tpBad : TrackPoint := ⟨"notatime", 1, 2, "", "", "", "", "LOC", "", ""⟩

/-- A track item of sequence 5 with parsable coordinates (noon). -/
def itG1 : Item := mkItem "5" "" "" "202001011200" (some 1) (some 2)

/-- A track item of sequence 5 whose latitude fails float() parsing. -/
def itNoLat : Item := mkItem "5" "" "" "202001010000" none (some 3)

/-- A track item of sequence 5 with parsable coordinates (morning). -/
def itG2 : Item := mkItem "5" "" "" "202001010600" (some 4) (some 5)

/-- A client serving the three track items on one page, the unparsable one in
the middle. -/
def c8client : Client :=
  ⟨"k", fun _ _ page _ => if page = 1 then ⟨[itG1, itNoLat, itG2], 3⟩ else ⟨[], 0⟩⟩

/-- The parsed point of itG1. -/
def ptG1 : TrackPoint := ⟨"202001011200", 1, 2, "", "", "", "", "", "", ""⟩

/-! ### Lemmas about the stable sorts -/

lemma mem_insertByKeyDesc {α : Type} (key : α → Nat) (a x : α) :
    ∀ l : List α, x ∈ insertByKeyDesc key a l ↔ x = a ∨ x ∈ l := by
  intro l
  induction l with
  | nil => simp [insertByKeyDesc]
  | cons b t ih =>
    simp only [insertByKeyDesc]
    split
    · simp only [List.mem_cons, ih]
      tauto
    · simp only [List.mem_cons]

lemma pairwise_insertByKeyDesc {α : Type} (key : α → Nat) (a : α) :
    ∀ l : List α, l.Pairwise (fun u v => key v ≤ key u) →
      (insertByKeyDesc key a l).Pairwise (fun u v => key v ≤ key u) := by
  intro l
  induction l with
  | nil => intro _; simp [insertByKeyDesc]
  | cons b t ih =>
    intro h
    rw [List.pairwise_cons] at h
    simp only [insertByKeyDesc]
    split
    · rw [List.pairwise_cons]
      refine ⟨?_, ih h.2⟩
      intro x hx
      rcases (mem_insertByKeyDesc key a x t).mp hx with hxa | hxt
      · subst hxa; omega
      · exact h.1 x hxt
    · rw [List.pairwise_cons]
      refine ⟨?_, List.pairwise_cons.mpr h⟩
      intro x hx
      rcases List.mem_cons.mp hx with hxb | hxt
      · subst hxb; omega
      · have := h.1 x hxt; omega

lemma pairwise_sortByKeyDesc {α : Type} (key : α → Nat) :
    ∀ l : List α, (sortByKeyDesc key l).Pairwise (fun u v => key v ≤ key u) := by
  intro l
  induction l with
  | nil => simp [sortByKeyDesc]
  | cons a t ih => exact pairwise_insertByKeyDesc key a _ ih

lemma mem_sortByKeyDesc {α : Type} (key : α → Nat) (x : α) :
    ∀ l : List α, x ∈ sortByKeyDesc key l ↔ x ∈ l := by
  intro l
  induction l with
  | nil => simp [sortByKeyDesc]
  | cons a t ih =>
    simp only [sortByKeyDesc, mem_insertByKeyDesc, ih, List.mem_cons]

/-! ### Lemmas about the pagination loop -/

lemma pagLoop_log {σ : Type} (f : Nat → Page) (rows : Nat) (step : σ → List Item → σ) :
    ∀ (fuel page : Nat) (st : σ) (log : List Nat),
      (pagLoop f rows step fuel page st log).2 = log ++ pagesFetched f rows fuel page := by
  intro fuel
  induction fuel with
  | zero => intro page st log; simp [pagLoop, pagesFetched]
  | succ fuel ih =>
    intro page st log
    by_cases h1 : (f page).items.isEmpty = true
    · simp [pagLoop, pagesFetched, h1]
    · by_cases h2 : (f page).totalCount ≤ (page : ℤ) * (rows : ℤ)
      · simp [pagLoop, pagesFetched, h1, h2]
      · simp [pagLoop, pagesFetched, h1, h2, ih]

lemma pagLoop_inv {σ : Type} (P : σ → Prop) (step : σ → List Item → σ)
    (hstep : ∀ s items, P s → P (step s items)) (f : Nat → Page) (rows : Nat) :
    ∀ (fuel page : Nat) (st : σ) (log : List Nat),
      P st → P (pagLoop f rows step fuel page st log).1 := by
  intro fuel
  induction fuel with
  | zero => intro page st log h; simpa [pagLoop] using h
  | succ fuel ih =>
    intro page st log h
    simp only [pagLoop]
    by_cases h1 : (f page).items.isEmpty = true
    · rw [if_pos h1]
      exact h
    · rw [if_neg h1]
      by_cases h2 : (f page).totalCount ≤ (page : ℤ) * (rows : ℤ)
      · rw [if_pos h2]
        exact hstep st (f page).items h
      · rw [if_neg h2]
        exact ih (page + 1) _ _ (hstep st (f page).items h)

lemma pagLoop_fst_sim {σ₁ σ₂ : Type} (R : σ₁ → σ₂ → Prop)
    (step₁ : σ₁ → List Item → σ₁) (step₂ : σ₂ → List Item → σ₂)
    (hstep : ∀ s t items, R s t → R (step₁ s items) (step₂ t items))
    (f : Nat → Page) (rows : Nat) :
    ∀ (fuel page : Nat) (st₁ : σ₁) (st₂ : σ₂) (log₁ log₂ : List Nat),
      R st₁ st₂ →
      R (pagLoop f rows step₁ fuel page st₁ log₁).1 (pagLoop f rows step₂ fuel page st₂ log₂).1 := by
  intro fuel
  induction fuel with
  | zero => intro page st₁ st₂ log₁ log₂ h; simpa [pagLoop] using h
  | succ fuel ih =>
    intro page st₁ st₂ log₁ log₂ h
    simp only [pagLoop]
    by_cases h1 : (f page).items.isEmpty = true
    · rw [if_pos h1, if_pos h1]
      exact h
    · rw [if_neg h1, if_neg h1]
      by_cases h2 : (f page).totalCount ≤ (page : ℤ) * (rows : ℤ)
      · rw [if_pos h2, if_pos h2]
        exact hstep st₁ st₂ (f page).items h
      · rw [if_neg h2, if_neg h2]
        exact ih (page + 1) _ _ _ _ (hstep st₁ st₂ (f page).items h)

lemma pagesFetched_spec (f : Nat → Page) (rows : Nat) :
    ∀ (fuel page : Nat), 1 ≤ fuel →
      ∃ k : Nat, pagesFetched f rows fuel page = List.range' page (k + 1) ∧ k + 1 ≤ fuel ∧
        (∀ m, page ≤ m → m < page + k → ¬pageStop f rows m) ∧
        (pageStop f rows (page + k) ∨ k + 1 = fuel) := by
  intro fuel
  induction fuel with
  | zero => intro page h; omega
  | succ fuel ih =>
    intro page _
    by_cases hstop : pageStop f rows page
    · refine ⟨0, ?_, by omega, by omega, by simpa using Or.inl hstop⟩
      simp only [pagesFetched]
      rcases hstop with hempty | htot
      · rw [if_pos hempty]
        simp [List.range']
      · by_cases hempty : (f page).items.isEmpty = true
        · rw [if_pos hempty]; simp [List.range']
        · rw [if_neg hempty, if_pos htot]; simp [List.range']
    · have hempty : ¬((f page).items.isEmpty = true) := fun h => hstop (Or.inl h)
      have htot : ¬((f page).totalCount ≤ (page : ℤ) * (rows : ℤ)) := fun h => hstop (Or.inr h)
      rcases Nat.eq_zero_or_pos fuel with hf0 | hfpos
      · subst hf0
        refine ⟨0, ?_, by omega, by omega, Or.inr rfl⟩
        simp only [pagesFetched]
        rw [if_neg hempty, if_neg htot]
        simp [List.range']
      · obtain ⟨k, hk1, hk2, hk3, hk4⟩ := ih (page + 1) hfpos
        refine ⟨k + 1, ?_, by omega, ?_, ?_⟩
        · simp only [pagesFetched]
          rw [if_neg hempty, if_neg htot, hk1]
          conv_rhs => rw [List.range'_succ]
        · intro m hm1 hm2
          rcases Nat.eq_or_lt_of_le hm1 with hme | hml
          · subst hme; exact hstop
          · exact hk3 m hml (by omega)
        · rcases hk4 with h | h
          · exact Or.inl (by
              have : page + 1 + k = page + (k + 1) := by omega
              rwa [this] at h)
          · exact Or.inr (by omega)

/-! ### Lemmas about the summary merge invariant -/

lemma updateAcc_inv (a : SumAcc) (typ_tm : String) (dt : Option DateTime)
    (hdt : parse_dt_14 typ_tm = dt) (ha : accInv a) : accInv (updateAcc a typ_tm dt) := by
  obtain ⟨ha1, ha2, ha3⟩ := ha
  cases dt with
  | none => exact ⟨ha1, ha2, ha3⟩
  | some d =>
    cases hfd : a.firstDt with
    | none =>
      cases hld : a.lastDt with
      | none =>
        refine ⟨?_, ?_, ?_⟩
        · simp [updateAcc, hfd, hdt]
        · simp [updateAcc, hld, hdt]
        · intro df dl h1 h2
          simp [updateAcc, hfd, hld] at h1 h2
          subst h1; subst h2; omega
      | some l =>
        by_cases hcl : l.key < d.key
        · refine ⟨?_, ?_, ?_⟩
          · simp [updateAcc, hfd, hdt]
          · simp [updateAcc, hld, hcl, hdt]
          · intro df dl h1 h2
            simp [updateAcc, hfd, hld, hcl] at h1 h2
            subst h1; subst h2; omega
        · refine ⟨?_, ?_, ?_⟩
          · simp [updateAcc, hfd, hdt]
          · simp [updateAcc, hld, hcl, ha2]
          · intro df dl h1 h2
            simp [updateAcc, hfd, hld, hcl] at h1 h2
            subst h1; subst h2; omega
    | some f =>
      cases hld : a.lastDt with
      | none =>
        by_cases hcf : d.key < f.key
        · refine ⟨?_, ?_, ?_⟩
          · simp [updateAcc, hfd, hcf, hdt]
          · simp [updateAcc, hld, hdt]
          · intro df dl h1 h2
            simp [updateAcc, hfd, hld, hcf] at h1 h2
            subst h1; subst h2; omega
        · refine ⟨?_, ?_, ?_⟩
          · simp [updateAcc, hfd, hcf, ha1]
          · simp [updateAcc, hld, hdt]
          · intro df dl h1 h2
            simp [updateAcc, hfd, hld, hcf] at h1 h2
            subst h1; subst h2; omega
      | some l =>
        have hfl : f.key ≤ l.key := ha3 f l hfd hld
        by_cases hcf : d.key < f.key <;> by_cases hcl : l.key < d.key <;>
          refine ⟨?_, ?_, ?_⟩
        · simp [updateAcc, hfd, hcf, hdt]
        · simp [updateAcc, hld, hcl, hdt]
        · intro df dl h1 h2
          simp [updateAcc, hfd, hld, hcf, hcl] at h1 h2
          subst h1; subst h2; omega
        · simp [updateAcc, hfd, hcf, hdt]
        · simp [updateAcc, hld, hcl, ha2]
        · intro df dl h1 h2
          simp [updateAcc, hfd, hld, hcf, hcl] at h1 h2
          subst h1; subst h2; omega
        · simp [updateAcc, hfd, hcf, ha1]
        · simp [updateAcc, hld, hcl, hdt]
        · intro df dl h1 h2
          simp [updateAcc, hfd, hld, hcf, hcl] at h1 h2
          subst h1; subst h2; omega
        · simp [updateAcc, hfd, hcf, ha1]
        · simp [updateAcc, hld, hcl, ha2]
        · intro df dl h1 h2
          simp [updateAcc, hfd, hld, hcf, hcl] at h1 h2
          subst h1; subst h2; omega

lemma processSummaryItem_inv (seen : List (String × SumAcc)) (it : Item)
    (h : seenInv seen) : seenInv (processSummaryItem seen it) := by
  simp only [processSummaryItem]
  by_cases hempty : pystrip it.typSeq = ""
  · simpa [hempty] using h
  · rw [if_neg hempty]
    by_cases hfound : (seen.find? (fun kv => kv.1 == pystrip it.typSeq)).isSome = true
    · rw [if_pos hfound]
      intro kv hkv
      obtain ⟨kv0, hkv0, hmap⟩ := List.mem_map.mp hkv
      by_cases heq : (kv0.1 == pystrip it.typSeq) = true
      · rw [if_pos heq] at hmap
        subst hmap
        exact updateAcc_inv kv0.2 _ _ rfl (h kv0 hkv0)
      · rw [if_neg heq] at hmap
        subst hmap
        exact h kv0 hkv0
    · rw [if_neg hfound]
      intro kv hkv
      rcases List.mem_append.mp hkv with hold | hnew
      · exact h kv hold
      · simp only [List.mem_singleton] at hnew
        subst hnew
        refine ⟨rfl, rfl, ?_⟩
        intro df dl h1 h2
        simp only at h1 h2
        rw [h1] at h2
        cases h2
        omega

lemma stepSummaries_inv :
    ∀ (items : List Item) (seen : List (String × SumAcc)),
      seenInv seen → seenInv (stepSummaries seen items) := by
  intro items
  induction items with
  | nil => intro seen h; simpa [stepSummaries] using h
  | cons it t ih =>
    intro seen h
    simpa [stepSummaries] using ih (processSummaryItem seen it) (processSummaryItem_inv seen it h)

lemma list_unique_seen_inv (c : Client) (from_d to_d : ℤ) (maxp rows : Nat) :
    seenInv ((pagLoop (fun page => c.fetch from_d to_d page rows) rows stepSummaries
      maxp 1 [] []).1) := by
  refine pagLoop_inv seenInv stepSummaries ?_ _ rows maxp 1 [] [] ?_
  · intro s items hs
    exact stepSummaries_inv items s hs
  · intro kv hkv
    cases hkv

lemma list_unique_mem_acc (c : Client) (from_d to_d : ℤ) (maxp rows : Nat) (s : Summary)
    (hs : s ∈ list_unique_typhoons_in_range c from_d to_d maxp rows) :
    ∃ a : SumAcc, accInv a ∧ s = eraseDts a := by
  simp only [list_unique_typhoons_in_range] at hs
  obtain ⟨a, ha, hae⟩ := List.mem_map.mp hs
  have hmem : a ∈ (pagLoop (fun page => c.fetch from_d to_d page rows) rows stepSummaries
      maxp 1 [] []).1.map (fun kv => kv.2) :=
    (mem_sortByKeyDesc sumSortKey a _).mp ha
  obtain ⟨kv, hkv, hkva⟩ := List.mem_map.mp hmem
  refine ⟨a, ?_, hae.symm⟩
  rw [← hkva]
  exact list_unique_seen_inv c from_d to_d maxp rows kv hkv

/-! ### Lemmas about the nearest-approach scan -/

lemma bestAux_some_spec (loc_lat loc_lon : ℝ) :
    ∀ (l : List TrackPoint) (b : BestAcc),
      ∃ r, bestAux loc_lat loc_lon (some b) l = some r ∧
        ((r = b ∧ ∀ j (hj : j < l.length), b.dist_km ≤ trackDist loc_lat loc_lon (l.get ⟨j, hj⟩)) ∨
         (∃ i, ∃ hi : i < l.length,
            r = ⟨trackDist loc_lat loc_lon (l.get ⟨i, hi⟩), l.get ⟨i, hi⟩⟩ ∧
            r.dist_km < b.dist_km ∧
            (∀ j (hj : j < l.length), r.dist_km ≤ trackDist loc_lat loc_lon (l.get ⟨j, hj⟩)) ∧
            (∀ j (hj : j < l.length), j < i →
              r.dist_km < trackDist loc_lat loc_lon (l.get ⟨j, hj⟩)))) := by
  intro l
  induction l with
  | nil =>
    intro b
    exact ⟨b, rfl, Or.inl ⟨rfl, fun j hj => absurd hj (Nat.not_lt_zero j)⟩⟩
  | cons q t ih =>
    intro b
    by_cases hlt : trackDist loc_lat loc_lon q < b.dist_km
    · obtain ⟨r, hr, hcase⟩ := ih ⟨trackDist loc_lat loc_lon q, q⟩
      refine ⟨r, ?_, ?_⟩
      · simpa [bestAux, hlt] using hr
      · right
        rcases hcase with ⟨req, hall⟩ | ⟨i, hi, req, hless, hall, hbefore⟩
        · subst req
          refine ⟨0, Nat.succ_pos t.length, rfl, hlt, ?_, ?_⟩
          · intro j hj
            match j with
            | 0 => exact le_refl _
            | jj + 1 => exact hall jj (Nat.lt_of_succ_lt_succ hj)
          · intro j hj hj0
            exact absurd hj0 (Nat.not_lt_zero j)
        · refine ⟨i + 1, Nat.succ_lt_succ hi, req, lt_trans hless hlt, ?_, ?_⟩
          · intro j hj
            match j with
            | 0 => exact le_of_lt hless
            | jj + 1 => exact hall jj (Nat.lt_of_succ_lt_succ hj)
          · intro j hj hji
            match j with
            | 0 => exact hless
            | jj + 1 => exact hbefore jj (Nat.lt_of_succ_lt_succ hj) (Nat.lt_of_succ_lt_succ hji)
    · obtain ⟨r, hr, hcase⟩ := ih b
      refine ⟨r, ?_, ?_⟩
      · simpa [bestAux, hlt] using hr
      · rcases hcase with ⟨req, hall⟩ | ⟨i, hi, req, hless, hall, hbefore⟩
        · left
          refine ⟨req, ?_⟩
          intro j hj
          match j with
          | 0 => exact le_of_not_lt hlt
          | jj + 1 => exact hall jj (Nat.lt_of_succ_lt_succ hj)
        · right
          refine ⟨i + 1, Nat.succ_lt_succ hi, req, hless, ?_, ?_⟩
          · intro j hj
            match j with
            | 0 => exact le_of_lt (lt_of_lt_of_le hless (le_of_not_lt hlt))
            | jj + 1 => exact hall jj (Nat.lt_of_succ_lt_succ hj)
          · intro j hj hji
            match j with
            | 0 => exact lt_of_lt_of_le hless (le_of_not_lt hlt)
            | jj + 1 => exact hbefore jj (Nat.lt_of_succ_lt_succ hj) (Nat.lt_of_succ_lt_succ hji)

lemma bestPoint_spec (loc_lat loc_lon : ℝ) (q : TrackPoint) (t : List TrackPoint) :
    ∃ i, ∃ hi : i < (q :: t).length,
      bestPoint (q :: t) loc_lat loc_lon =
        some ⟨trackDist loc_lat loc_lon ((q :: t).get ⟨i, hi⟩), (q :: t).get ⟨i, hi⟩⟩ ∧
      (∀ j (hj : j < (q :: t).length),
        trackDist loc_lat loc_lon ((q :: t).get ⟨i, hi⟩) ≤
          trackDist loc_lat loc_lon ((q :: t).get ⟨j, hj⟩)) ∧
      (∀ j (hj : j < (q :: t).length), j < i →
        trackDist loc_lat loc_lon ((q :: t).get ⟨i, hi⟩) <
          trackDist loc_lat loc_lon ((q :: t).get ⟨j, hj⟩)) := by
  obtain ⟨r, hr, hcase⟩ := bestAux_some_spec loc_lat loc_lon t ⟨trackDist loc_lat loc_lon q, q⟩
  have hrun : bestPoint (q :: t) loc_lat loc_lon = some r := by
    simpa [bestPoint, bestAux] using hr
  rcases hcase with ⟨req, hall⟩ | ⟨i, hi, req, hless, hall, hbefore⟩
  · subst req
    refine ⟨0, Nat.succ_pos t.length, hrun, ?_, ?_⟩
    · intro j hj
      match j with
      | 0 => exact le_refl _
      | jj + 1 => exact hall jj (Nat.lt_of_succ_lt_succ hj)
    · intro j hj hj0
      exact absurd hj0 (Nat.not_lt_zero j)
  · subst req
    refine ⟨i + 1, Nat.succ_lt_succ hi, hrun, ?_, ?_⟩
    · intro j hj
      match j with
      | 0 => exact le_of_lt hless
      | jj + 1 => exact hall jj (Nat.lt_of_succ_lt_succ hj)
    · intro j hj hji
      match j with
      | 0 => exact hless
      | jj + 1 => exact hbefore jj (Nat.lt_of_succ_lt_succ hj) (Nat.lt_of_succ_lt_succ hji)

/-! ### Lemmas about the track-point extraction -/

lemma processTrackItem_eq (typ_seq : ℤ) (pts : List TrackPoint) (it : Item) :
    processTrackItem typ_seq pts it = pts ++ (mkTrackPoint typ_seq it).toList := by
  simp only [processTrackItem, mkTrackPoint]
  by_cases hs : safe_int it.typSeq 0 ≠ typ_seq
  · rw [if_pos hs, if_pos hs]
    simp
  · rw [if_neg hs, if_neg hs]
    cases it.typLat with
    | none => simp
    | some la =>
      cases it.typLon with
      | none => simp
      | some lo => simp

lemma foldl_processTrackItem (typ_seq : ℤ) :
    ∀ (items : List Item) (pts : List TrackPoint),
      items.foldl (processTrackItem typ_seq) pts = pts ++ items.filterMap (mkTrackPoint typ_seq) := by
  intro items
  induction items with
  | nil => intro pts; simp
  | cons it t ih =>
    intro pts
    rw [List.foldl_cons, ih, processTrackItem_eq]
    cases hmk : mkTrackPoint typ_seq it with
    | none => simp [List.filterMap_cons, hmk]
    | some p => simp [List.filterMap_cons, hmk]

/-! ### Claim theorems -/

/-- Claim C1: for every non-empty list of track points and every target
coordinate, the nearest-approach summary returns exactly one closest-point
record, built from a point whose haversine distance (Earth radius 6371 km)
to the target is at most the distance of every other point in the list; on
ties the first minimum in the points' scan order wins (every strictly
earlier point is strictly farther); for an empty point list both the closest
point and the impact window are absent. -/
theorem claim1_nearest_approach (loc_lat loc_lon : ℝ) (points : List TrackPoint) :
    (points = [] →
      (summarize_track_near_location points loc_lat loc_lon).closest = none ∧
      (summarize_track_near_location points loc_lat loc_lon).impact_window = none) ∧
    (points ≠ [] → ∃ i, ∃ hi : i < points.length,
      (summarize_track_near_location points loc_lat loc_lon).closest =
        some ⟨fmt_dt14_kst (points.get ⟨i, hi⟩).typTm,
              round1 (trackDist loc_lat loc_lon (points.get ⟨i, hi⟩)),
              (points.get ⟨i, hi⟩).lat, (points.get ⟨i, hi⟩).lon,
              (points.get ⟨i, hi⟩).typLoc⟩ ∧
      (∀ j (hj : j < points.length),
        trackDist loc_lat loc_lon (points.get ⟨i, hi⟩) ≤
          trackDist loc_lat loc_lon (points.get ⟨j, hj⟩)) ∧
      (∀ j (hj : j < points.length), j < i →
        trackDist loc_lat loc_lon (points.get ⟨i, hi⟩) <
          trackDist loc_lat loc_lon (points.get ⟨j, hj⟩))) := by
  constructor
  · intro h
    subst h
    exact ⟨rfl, rfl⟩
  · intro hne
    match points with
    | [] => exact absurd rfl hne
    | q :: t =>
      obtain ⟨i, hi, hbest, hmin, hfirst⟩ := bestPoint_spec loc_lat loc_lon q t
      refine ⟨i, hi, ?_, hmin, hfirst⟩
      simp only [summarize_track_near_location, hbest]

/-- Witness for C1 at concrete inputs: the empty list yields no closest point,
and a one-point list yields its unique point as the closest record. -/
theorem claim1_nearest_approach_witness :
    ((summarize_track_near_location [] 3 4).closest = none ∧
     (summarize_track_near_location [] 3 4).impact_window = none) ∧
    (∃ i, ∃ hi : i < [tpA].length,
      (summarize_track_near_location [tpA] 3 4).closest =
        some ⟨fmt_dt14_kst ([tpA].get ⟨i, hi⟩).typTm,
              round1 (trackDist 3 4 ([tpA].get ⟨i, hi⟩)),
              ([tpA].get ⟨i, hi⟩).lat, ([tpA].get ⟨i, hi⟩).lon, ([tpA].get ⟨i, hi⟩).typLoc⟩ ∧
      (∀ j (hj : j < [tpA].length),
        trackDist 3 4 ([tpA].get ⟨i, hi⟩) ≤ trackDist 3 4 ([tpA].get ⟨j, hj⟩)) ∧
      (∀ j (hj : j < [tpA].length), j < i →
        trackDist 3 4 ([tpA].get ⟨i, hi⟩) < trackDist 3 4 ([tpA].get ⟨j, hj⟩))) :=
  ⟨(claim1_nearest_approach 3 4 []).1 rfl, (claim1_nearest_approach 3 4 [tpA]).2 (by simp)⟩

/-- Claim C6 (amended): whenever the best point's timestamp parses and both
t - 6h and t + 6h stay inside the representable datetime range (so neither
timedelta step raises OverflowError), the impact window is exactly
[t - 6 hours, t + 6 hours] with t as center, formatted "%Y-%m-%d %H:%M". -/
theorem claim6_impact_window (points : List TrackPoint) (loc_lat loc_lon : ℝ) (b : BestAcc)
    (dt s e : DateTime) (hb : bestPoint points loc_lat loc_lon = some b)
    (hdt : parse_dt_14 b.p.typTm = some dt)
    (hs : subHoursC 6 dt = some s) (he : addHoursC 6 dt = some e) :
    (summarize_track_near_location points loc_lat loc_lon).impact_window =
      some ⟨strftime_ymd_hm s, strftime_ymd_hm e, strftime_ymd_hm dt⟩ := by
  simp only [summarize_track_near_location, hb, windowOfTm, hdt, hs, he]

/-- Witness for C6 at the spec's example: closest time 2017-09-03 16:00 yields
the window 10:00 to 22:00 of the same day. -/
theorem claim6_impact_window_witness :
    parse_dt_14 "201709031600" = some ⟨2017, 9, 3, 16, 0⟩ ∧
    (summarize_track_near_location [tp2017] 0 0).impact_window =
      some ⟨"2017-09-03 10:00", "2017-09-03 22:00", "2017-09-03 16:00"⟩ :=
  ⟨rfl,
   claim6_impact_window [tp2017] 0 0 ⟨trackDist 0 0 tp2017, tp2017⟩
     ⟨2017, 9, 3, 16, 0⟩ ⟨2017, 9, 3, 10, 0⟩ ⟨2017, 9, 3, 22, 0⟩ rfl rfl rfl rfl⟩

/-- Counterexample to C6 as stated: the timestamp 000101010000 parses
(to datetime.min), yet the impact window is absent, because
datetime.min - timedelta(hours=6) raises OverflowError and the try/except
yields None; the closest record is still produced. -/
theorem claim6_counterexample :
    parse_dt_14 "000101010000" = some dtMin ∧
    (summarize_track_near_location [tpEdge] 0 0).closest.isSome = true ∧
    (summarize_track_near_location [tpEdge] 0 0).impact_window = none :=
  ⟨rfl, rfl, rfl⟩

/-- Claim C10: when the best point's timestamp does not parse, the summary
still contains the closest-point record — with the raw timestamp string
echoed unchanged and the distance rounded to one decimal — while the impact
window alone is absent. -/
theorem claim10_malformed_time (points : List TrackPoint) (loc_lat loc_lon : ℝ) (b : BestAcc)
    (hb : bestPoint points loc_lat loc_lon = some b) (hnp : parse_dt_14 b.p.typTm = none) :
    (summarize_track_near_location points loc_lat loc_lon).closest =
      some ⟨b.p.typTm, round1 b.dist_km, b.p.lat, b.p.lon, b.p.typLoc⟩ ∧
    (summarize_track_near_location points loc_lat loc_lon).impact_window = none := by
  constructor
  · simp only [summarize_track_near_location, hb, fmt_dt14_kst, hnp]
  · simp only [summarize_track_near_location, hb, windowOfTm, hnp]

/-- Witness for C10 at a concrete malformed timestamp. -/
theorem claim10_malformed_time_witness :
    parse_dt_14 "notatime" = none ∧
    (summarize_track_near_location [tpBad] 0 0).closest =
      some ⟨"notatime", round1 (trackDist 0 0 tpBad), 1, 2, "LOC"⟩ ∧
    (summarize_track_near_location [tpBad] 0 0).impact_window = none :=
  ⟨rfl,
   (claim10_malformed_time [tpBad] 0 0 ⟨trackDist 0 0 tpBad, tpBad⟩ rfl rfl).1,
   (claim10_malformed_time [tpBad] 0 0 ⟨trackDist 0 0 tpBad, tpBad⟩ rfl rfl).2⟩

/-- Claim C9: the geocoder resolves "제주특별자치도" to the same coordinate
pair as "제주" (the substring pass already matches the table key "제주"),
and a region string matching no table entry under either the raw-substring
pass or the normalized-equality pass is absent. -/
theorem claim9_geocoder :
    geocode_korea "제주특별자치도" = geocode_korea "제주" ∧
    geocode_korea "제주" = some (33.4996, 126.5312) ∧
    geocode_korea "Atlantis" = none :=
  ⟨rfl, rfl, rfl⟩

/-- Claim C2 (amended): list_unique_typhoons_in_range returns the summaries
sorted descending by last-seen timestamp where a missing or unparsable
timestamp is keyed as datetime.min; hence an unparsable summary sorts after
every summary whose parsed timestamp is strictly later than datetime.min,
but ties with summaries parsing exactly to datetime.min (year 1), the stable
sort keeping first-appearance order among such ties. -/
theorem claim2_sorted_desc (c : Client) (from_d to_d : ℤ) (maxp rows : Nat) :
    (list_unique_typhoons_in_range c from_d to_d maxp rows).Pairwise
      (fun s1 s2 => strSumKey s2 ≤ strSumKey s1) := by
  simp only [list_unique_typhoons_in_range]
  rw [List.pairwise_map]
  refine List.Pairwise.imp_of_mem ?_ (pairwise_sortByKeyDesc sumSortKey _)
  intro a b ha hb hrel
  have hainv : accInv a := by
    have hm := (mem_sortByKeyDesc sumSortKey a _).mp ha
    obtain ⟨kv, hkv, hkva⟩ := List.mem_map.mp hm
    rw [← hkva]
    exact list_unique_seen_inv c from_d to_d maxp rows kv hkv
  have hbinv : accInv b := by
    have hm := (mem_sortByKeyDesc sumSortKey b _).mp hb
    obtain ⟨kv, hkv, hkva⟩ := List.mem_map.mp hm
    rw [← hkva]
    exact list_unique_seen_inv c from_d to_d maxp rows kv hkv
  have ka : strSumKey (eraseDts a) = sumSortKey a := by
    simp only [strSumKey, eraseDts, sumSortKey, hainv.2.1]
  have kb : strSumKey (eraseDts b) = sumSortKey b := by
    simp only [strSumKey, eraseDts, sumSortKey, hbinv.2.1]
  rw [ka, kb]
  exact hrel

/-- Counterexample to C2 as stated: with one bulletin whose timestamp does
not parse (scanned first) and one whose timestamp parses exactly to
datetime.min, the unparsable summary sorts before the parsable one — both
carry the minimal key and the stable sort keeps scan order — so an
unparsable last-seen timestamp does not sort after all parsable ones. -/
theorem claim2_counterexample :
    ((list_unique_typhoons_in_range c2client 0 0 20 100).getD 0 blankSummary).lastTypTm = "bad" ∧
    parse_dt_14 "bad" = none ∧
    (parse_dt_14
      (((list_unique_typhoons_in_range c2client 0 0 20 100).getD 1 blankSummary).lastTypTm)).isSome
        = true ∧
    (list_unique_typhoons_in_range c2client 0 0 20 100).length = 2 :=
  ⟨rfl, rfl, rfl, rfl⟩

/-- Claim C7: every summary produced by list_unique_typhoons_in_range whose
first-seen and last-seen timestamps both parse satisfies
firstSeenTimestamp ≤ lastSeenTimestamp, however the bulletins were spread
over pages and in whatever order they appeared. -/
theorem claim7_first_le_last (c : Client) (from_d to_d : ℤ) (maxp rows : Nat) (s : Summary)
    (hs : s ∈ list_unique_typhoons_in_range c from_d to_d maxp rows)
    (df dl : DateTime) (hf : parse_dt_14 s.firstTypTm = some df)
    (hl : parse_dt_14 s.lastTypTm = some dl) : df.key ≤ dl.key := by
  obtain ⟨a, hainv, hse⟩ := list_unique_mem_acc c from_d to_d maxp rows s hs
  subst hse
  have h1 : a.firstDt = some df := by rw [← hainv.1]; exact hf
  have h2 : a.lastDt = some dl := by rw [← hainv.2.1]; exact hl
  exact hainv.2.2 df dl h1 h2

/-- Witness for C7: a sequence number seen on two pages, the later timestamp
on the earlier page, still yields first ≤ last in the merged summary. -/
theorem claim7_first_le_last_witness :
    s7 ∈ list_unique_typhoons_in_range c7client 0 0 20 100 ∧
    (⟨2019, 1, 1, 12, 0⟩ : DateTime).key ≤ (⟨2020, 1, 1, 12, 0⟩ : DateTime).key := by
  have hmem : s7 ∈ list_unique_typhoons_in_range c7client 0 0 20 100 := by decide
  exact ⟨hmem,
    claim7_first_le_last c7client 0 0 20 100 s7 hmem
      ⟨2019, 1, 1, 12, 0⟩ ⟨2020, 1, 1, 12, 0⟩ rfl rfl⟩

/-- Claim C3: the pagination loop shared by the two read operations (an
arbitrary page-processing step over the shared pagLoop) starts at page 1 and
fetches a contiguous run of pages, stopping exactly at the first page with
no items or with pageNumber * pageSize at least the reported totalCount, or
at maxPages; in particular, with every page reporting totalCount 150 and
pageSize 100 and carrying items, exactly pages 1 and 2 are fetched. -/
theorem claim3_pagination {σ : Type} (step : σ → List Item → σ) (st : σ)
    (f : Nat → Page) (rows maxp : Nat) (hmax : 1 ≤ maxp) :
    (∃ k : Nat, (pagLoop f rows step maxp 1 st []).2 = List.range' 1 (k + 1) ∧
      k + 1 ≤ maxp ∧
      (∀ m, 1 ≤ m → m ≤ k → ¬pageStop f rows m) ∧
      (pageStop f rows (k + 1) ∨ k + 1 = maxp)) ∧
    (∀ g : Nat → Page, (∀ m, (g m).totalCount = 150 ∧ (g m).items ≠ []) →
      (pagLoop g 100 step 20 1 st []).2 = [1, 2]) := by
  constructor
  · obtain ⟨k, h1, h2, h3, h4⟩ := pagesFetched_spec f rows maxp 1 hmax
    refine ⟨k, ?_, h2, ?_, ?_⟩
    · rw [pagLoop_log]
      simpa using h1
    · intro m hm1 hm2
      exact h3 m hm1 (by omega)
    · rcases h4 with h | h
      · left
        have he : 1 + k = k + 1 := by omega
        rwa [he] at h
      · right
        exact h
  · intro g hg
    have e1 : ¬((g 1).items.isEmpty = true) := by
      rcases hgi : (g 1).items with _ | ⟨a, l⟩
      · exact absurd hgi (hg 1).2
      · simp [hgi]
    have e2 : ¬((g 2).items.isEmpty = true) := by
      rcases hgi : (g 2).items with _ | ⟨a, l⟩
      · exact absurd hgi (hg 2).2
      · simp [hgi]
    have t1 : ¬((g 1).totalCount ≤ ((1 : Nat) : ℤ) * ((100 : Nat) : ℤ)) := by
      rw [(hg 1).1]
      decide
    have t2 : (g 2).totalCount ≤ ((2 : Nat) : ℤ) * ((100 : Nat) : ℤ) := by
      rw [(hg 2).1]
      decide
    rw [pagLoop_log]
    have hu1 : pagesFetched g 100 20 1 = 1 :: pagesFetched g 100 19 2 := by
      simp only [pagesFetched]
      rw [if_neg e1, if_neg t1]
    have hu2 : pagesFetched g 100 19 2 = [2] := by
      simp only [pagesFetched]
      rw [if_neg e2, if_pos t2]
    rw [hu1, hu2]
    simp

/-- Witness for C3: a constant totalCount-150 page stream with pageSize 100
fetches exactly pages 1 and 2. -/
theorem claim3_pagination_witness :
    (1 ≤ 20) ∧
    (pagLoop (fun _ => pageW) 100 (fun (u : Unit) _ => u) 20 1 () []).2 = [1, 2] :=
  ⟨by decide,
   (claim3_pagination (fun (u : Unit) _ => u) () (fun _ => pageW) 100 20 (by decide)).2
     (fun _ => pageW) (fun _ => ⟨rfl, by simp [pageW]⟩)⟩

/-- Claim C8: get_track_points keeps exactly the scanned items of the
requested sequence number whose latitude and longitude both parsed as
floating-point numbers (sorted by parsed timestamp), and every kept point
carries the successfully parsed coordinates; an item whose latitude or
longitude fails to parse is dropped without aborting the page. -/
theorem claim8_parsed_coords (c : Client) (typ_seq from_d to_d : ℤ) (maxp rows : Nat) :
    get_track_points c typ_seq from_d to_d maxp rows =
      sortByKeyAsc trackSortKey
        ((allFetchedItems c from_d to_d maxp rows).filterMap (mkTrackPoint typ_seq)) ∧
    (∀ it p, mkTrackPoint typ_seq it = some p →
      it.typLat = some p.lat ∧ it.typLon = some p.lon) := by
  constructor
  · simp only [get_track_points, allFetchedItems]
    congr 1
    refine pagLoop_fst_sim
      (fun pts items => pts = items.filterMap (mkTrackPoint typ_seq))
      (stepTrack typ_seq) (fun acc items => acc ++ items) ?_ _ rows maxp 1 [] [] [] [] rfl
    intro s t items h
    simp only [stepTrack]
    rw [foldl_processTrackItem typ_seq, h, List.filterMap_append]
  · intro it p hmk
    simp only [mkTrackPoint] at hmk
    by_cases hs : safe_int it.typSeq 0 ≠ typ_seq
    · rw [if_pos hs] at hmk
      cases hmk
    · rw [if_neg hs] at hmk
      cases hla : it.typLat with
      | none => simp [hla] at hmk
      | some la =>
        cases hlo : it.typLon with
        | none => simp [hla, hlo] at hmk
        | some lo =>
          simp only [hla, hlo, Option.some.injEq] at hmk
          subst hmk
          exact ⟨rfl, rfl⟩

/-- Witness for C8: three items of sequence 5 on one page, the middle one
with unparsable latitude, yield exactly the two parsable points, and the
kept point carries its parsed coordinates. -/
theorem claim8_parsed_coords_witness :
    mkTrackPoint 5 itG1 = some ptG1 ∧
    (itG1.typLat = some ptG1.lat ∧ itG1.typLon = some ptG1.lon) ∧
    get_track_points c8client 5 0 0 20 100 =
      sortByKeyAsc trackSortKey
        ((allFetchedItems c8client 0 0 20 100).filterMap (mkTrackPoint 5)) ∧
    (get_track_points c8client 5 0 0 20 100).length = 2 :=
  ⟨rfl,
   (claim8_parsed_coords c8client 5 0 0 20 100).2 itG1 ptG1 rfl,
   (claim8_parsed_coords c8client 5 0 0 20 100).1,
   rfl⟩

/-- Claim C4 (amended): the past-track tool takes no date-range arguments;
for a valid sequence number (with the credential present) it performs
exactly one track fetch, over the fixed window
[today - 365*10 days, today + 1 day] — there is no near-term default window
and no calendar-year fallback scan. -/
theorem claim4_fixed_range (env : ℤ → ℤ → Nat → Nat → Page) (keyOpt : Option String)
    (today typSeq : ℤ) (htyp : 1 ≤ typSeq) (hkey : ¬(pystrip (keyOpt.getD "") = "")) :
    (tool_get_past_typhoon_track env keyOpt today typSeq).2 =
      [(today - 365 * 10, today + 1)] ∧
    (tool_get_past_typhoon_track env keyOpt today typSeq).1 =
      Except.ok (ToolOut.track typSeq
        (get_track_points ⟨pystrip (keyOpt.getD ""), env⟩ typSeq
          (today - 365 * 10) (today + 1) 20 100).length
        (get_track_points ⟨pystrip (keyOpt.getD ""), env⟩ typSeq
          (today - 365 * 10) (today + 1) 20 100)) := by
  have hnneg : ¬(typSeq ≤ 0) := by omega
  constructor <;>
    simp only [tool_get_past_typhoon_track, build_client_from_env, if_neg hnneg, if_neg hkey]

/-- Witness for C4 at a concrete today and sequence number. -/
theorem claim4_fixed_range_witness :
    (1 ≤ (7 : ℤ)) ∧ ¬(pystrip ((some "k").getD "") = "") ∧
    (tool_get_past_typhoon_track envEmpty (some "k") 738000 7).2 =
      [(738000 - 365 * 10, 738000 + 1)] :=
  ⟨by decide, by decide,
   (claim4_fixed_range envEmpty (some "k") 738000 7 (by decide) (by decide)).1⟩

/-- Counterexample to C4 as stated: even when the range yields no points at
all (so the claimed year-scanning fallback would have to fire), the tool
performs exactly one fetch, whose lower bound is today - 3650 days, not the
claimed near-term window of about 30 days back, and it stops there. -/
theorem claim4_counterexample :
    (tool_get_past_typhoon_track envEmpty (some "k") 738000 7).2 = [(734350, 738001)] ∧
    (tool_get_past_typhoon_track envEmpty (some "k") 738000 7).1 =
      Except.ok (ToolOut.track 7 0 []) ∧
    (734350 : ℤ) ≠ 738000 - 30 :=
  ⟨rfl, rfl, by decide⟩

/-- Claim C5 (amended): the upstream client is constructed lazily at call
time (the module-level slot holds nothing at import); with the credential
absent, the live-summary tool alone catches the construction failure and
returns a user-facing message as its result, while search-past-typhoons
(given valid arguments) and past-track (given a valid sequence number) let
the RuntimeError escape to the dispatcher. -/
theorem claim5_missing_credential (env : ℤ → ℤ → Nat → Nat → Page)
    (location : Option String) (today : ℤ) (q : String) (yr : Option ℤ)
    (maxYearsBack typSeq : ℤ)
    (hargs : ¬(pystrip q = "" ∧ yr = none)) (htyp : 1 ≤ typSeq) :
    initial_data_client = none ∧
    tool_get_live_typhoon_summary env none location today =
      Except.ok (ToolOut.message initFailMsg) ∧
    tool_search_past_typhoons env none q yr today maxYearsBack =
      Except.error missingKeyMsg ∧
    tool_get_past_typhoon_track env none today typSeq =
      (Except.error missingKeyMsg, []) := by
  have hnneg : ¬(typSeq ≤ 0) := by omega
  refine ⟨rfl, rfl, ?_, ?_⟩
  · simp only [tool_search_past_typhoons, build_client_from_env, if_neg hargs]
    rfl
  · simp only [tool_get_past_typhoon_track, build_client_from_env, if_neg hnneg]
    rfl

/-- Witness for C5 at concrete arguments with the credential absent. -/
theorem claim5_missing_credential_witness :
    (¬(pystrip "maemi" = "" ∧ (none : Option ℤ) = none)) ∧ (1 ≤ (7 : ℤ)) ∧
    (initial_data_client = none ∧
     tool_get_live_typhoon_summary envEmpty none none 738000 =
       Except.ok (ToolOut.message initFailMsg) ∧
     tool_search_past_typhoons envEmpty none "maemi" none 738000 70 =
       Except.error missingKeyMsg ∧
     tool_get_past_typhoon_track envEmpty none 738000 7 =
       (Except.error missingKeyMsg, [])) :=
  ⟨by decide, by decide,
   claim5_missing_credential envEmpty none 738000 "maemi" none 70 7 (by decide) (by decide)⟩

/-- Counterexample to C5 as stated: with the credential absent and valid
arguments, search-past-typhoons and past-track produce a propagated
RuntimeError, not a user-facing message result. -/
theorem claim5_counterexample :
    tool_search_past_typhoons envEmpty none "maemi" none 738000 70 =
      Except.error missingKeyMsg ∧
    (tool_get_past_typhoon_track envEmpty none 738000 7).1 =
      Except.error missingKeyMsg :=
  ⟨rfl, rfl⟩

end Typhoon
